import Mathlib

/-!
Verification of the goodhare playlist-export core against its specification.

The Python source (src/app.py, src/data_gathering.py, src/data_output.py) is
shallowly embedded: loosely-typed JSON-like values become the inductive `JVal`,
dictionaries become association lists, `dict.get` becomes `jget`, Python
truthiness becomes `truthy`, and code that can raise returns `Except`.
-/

namespace Goodhare

/-- JSON-like values, the loosely-typed records flowing through the program. -/
inductive JVal where
  | null : JVal
  | bool : Bool → JVal
  | num : Int → JVal
  | str : String → JVal
  | arr : List JVal → JVal
  | obj : List (String × JVal) → JVal

/-- Python `v == s` for a string literal `s`: true exactly when `v` is that
string (a non-string value compares unequal to a string in Python). -/
def isStrEq (v : JVal) (s : String) : Bool :=
  match v with
  | .str t => t == s
  | _ => false

/-- A Python dictionary with string keys (the shape of all records here). -/
abbrev Obj := List (String × JVal)

/-- Python truthiness: None, False, 0, "", [], {} are falsy. -/
def truthy : JVal → Bool
  | .null => false
  | .bool b => b
  | .num n => n != 0
  | .str s => s != ""
  | .arr xs => !xs.isEmpty
  | .obj kvs => !kvs.isEmpty

/-- `d.get(k, default)` on a Python dict, embedded on an association list. -/
def jget (o : Obj) (k : String) (dflt : JVal) : JVal :=
  match o.find? (fun p => p.1 == k) with
  | some p => p.2
  | none => dflt

/-- Auxiliary for `pySplit`: accumulates the current chunk (reversed). -/
def splitCharAux (sep : Char) : List Char → List Char → List (List Char)
  | [], acc => [acc.reverse]
  | c :: cs, acc =>
      if c = sep then acc.reverse :: splitCharAux sep cs []
      else splitCharAux sep cs (c :: acc)

/-- Python `s.split(sep)` for a single-character separator:
`"".split("-") = [""]`, `"a-b".split("-") = ["a","b"]`. -/
def pySplit (s : String) (sep : Char) : List String :=
  (splitCharAux sep s.data []).map (fun cs => String.mk cs)

/-- Python `str()` on scalar values (`str(None) = "None"`, `str(True) = "True"`).
Container reprs are abbreviated; no record examined here stringifies one. -/
def pyStr : JVal → String
  | .null => "None"
  | .bool true => "True"
  | .bool false => "False"
  | .num n => toString n
  | .str s => s
  | .arr _ => "<list>"
  | .obj _ => "<dict>"

/-- The string carried by a value, when it is one. -/
def strOfJVal : JVal → Option String
  | .str s => some s
  | _ => none

/-- Extracts the strings of a list of values; `none` when some value is not a
string (Python `str.join` raises `TypeError` there). -/
def asStrings : List JVal → Option (List String)
  | [] => some []
  | .str s :: rest => (asStrings rest).map (fun ss => s :: ss)
  | _ => none

/-- Python `sep.join(xs)`: concatenates strings, raising on a non-string. -/
def pyJoin (sep : String) (xs : List JVal) : Except String String :=
  match asStrings xs with
  | some ss => .ok (String.intercalate sep ss)
  | none => .error "TypeError: sequence item: expected str instance"

/-- The artist-name values collected by the normalizer: one `name` value per
artist entry that is a dictionary (`'Unknown Artist'` default per entry),
mirroring the list comprehension in `extract_track_info`. -/
def artistNameVals (l : List JVal) : List JVal :=
  l.filterMap (fun a =>
    match a with
    | .obj kvs => some (jget kvs "name" (.str "Unknown Artist"))
    | _ => none)

/-- The artist block of `extract_track_info` (src/data_gathering.py lines
194-200): `if artists_list and isinstance(artists_list, list)` joins the
per-entry names, else `'Unknown Artist'`; the join raises on a non-string. -/
def artistsField (track : Obj) : Except String String :=
  match jget track "artists" (.arr []) with
  | .arr (a :: rest) =>
      let artist_names := artistNameVals (a :: rest)
      if artist_names.isEmpty then .ok "Unknown Artist"
      else pyJoin ", " artist_names
  | _ => .ok "Unknown Artist"

/-- The album block of `extract_track_info` (lines 202-209): the pair
`(album_name, release_date)`. -/
def albumPairOf (track : Obj) : JVal × JVal :=
  match jget track "album" (.obj []) with
  | .obj kvs => (jget kvs "name" (.str "Unknown Album"),
                 jget kvs "release_date" (.str ""))
  | _ => (.str "Unknown Album", .str "")

/-- The release date the normalizer reads from a raw record. -/
def releaseDateOf (track : Obj) : JVal := (albumPairOf track).2

/-- The year block of `extract_track_info` (lines 211-217):
`str(release_date).split('-')[0]` when the release date is truthy, `''`
otherwise (the guarded `except` is unreachable: `str` always yields a
string and `split` never returns an empty list). -/
def yearOf (track : Obj) : String :=
  if truthy (releaseDateOf track) then
    (pySplit (pyStr (releaseDateOf track)) '-').headD ""
  else ""

/-- `extract_track_info` (src/data_gathering.py lines 184-226): normalizes
one raw track record into a six-field record.  The only way it can raise is
Python's `', '.join` meeting a non-string artist name, hence the `Except`. -/
def extract_track_info (track : Obj) : Except String Obj := do
  let artists ← artistsField track
  pure [("id", jget track "id" (.str "")),
        ("name", jget track "name" (.str "Unknown Track")),
        ("artist", .str artists),
        ("album", (albumPairOf track).1),
        ("year", .str (yearOf track)),
        ("duration_ms", jget track "duration_ms" (.num 0))]

/-- Decides whether `extract_track_info` succeeds on a record, i.e. whether
the artist join meets only strings. -/
def extractOk (track : Obj) : Bool :=
  match artistsField track with
  | .ok _ => true
  | .error _ => false

/-- One iteration of the liked-songs loop of `get_playlist_tracks`
(src/data_gathering.py lines 127-130): `track = item.get('track')`;
`if track and track.get('id')` appends `extract_track_info(track)`.
A truthy non-dictionary payload makes `track.get` raise `AttributeError`. -/
def processLikedItem (item : Obj) : Except String (Option Obj) :=
  let track := jget item "track" .null
  if truthy track then
    match track with
    | .obj kvs =>
        if truthy (jget kvs "id" .null) then
          (extract_track_info kvs).map some
        else .ok none
    | _ => .error "AttributeError"
  else .ok none

/-- The embedded payload the playlist loop resolves:
`track = item.get('item') or item.get('track')`. -/
def playlistPayload (item : Obj) : JVal :=
  let t1 := jget item "item" .null
  if truthy t1 then t1 else jget item "track" .null

/-- One iteration of the playlist loop of `get_playlist_tracks`
(src/data_gathering.py lines 150-167): payload must be a truthy dict, of
type `'track'`, with a truthy id; everything else is skipped silently. -/
def processPlaylistItem (item : Obj) : Except String (Option Obj) :=
  match playlistPayload item with
  | .obj kvs =>
      if truthy (.obj kvs) then
        let track_type := jget kvs "type" (.str "")
        let track_id := jget kvs "id" .null
        if isStrEq track_type "track" && truthy track_id then
          (extract_track_info kvs).map some
        else .ok none
      else .ok none
  | _ => .ok none

/-- Runs an item processor over a list of page items in order, collecting the
contributed tracks (the body of the `while results` loops). -/
def processItems (f : Obj → Except String (Option Obj)) :
    List Obj → Except String (List Obj)
  | [] => .ok []
  | i :: rest => do
      let r ← f i
      let rs ← processItems f rest
      match r with
      | some t => .ok (t :: rs)
      | none => .ok rs

/-- `fetchTracks` on the liked-songs sentinel: the pages are the `items`
lists of the `next`-pointer chain, processed in order. -/
def fetchTracksLiked (pages : List (List Obj)) : Except String (List Obj) :=
  processItems processLikedItem pages.flatten

/-- `fetchTracks` on a real playlist id, same page model. -/
def fetchTracksPlaylist (pages : List (List Obj)) : Except String (List Obj) :=
  processItems processPlaylistItem pages.flatten

/-- The item count `get_user_playlists` computes for one raw playlist record
(src/data_gathering.py lines 41-51): `playlist.get('items', {})`, then
`.get('total', 0)` when that is a dict, else the `tracks` fallback. -/
def trackCountOf (playlist : Obj) : JVal :=
  let items_info := jget playlist "items" (.obj [])
  match items_info with
  | .obj kvs => jget kvs "total" (.num 0)
  | _ =>
    let tracks_info := jget playlist "tracks" (.obj [])
    match tracks_info with
    | .obj kvs2 => jget kvs2 "total" (.num 0)
    | _ => .num 0

/-- The full CollectionSummary `get_user_playlists` builds per record
(src/data_gathering.py lines 53-66). -/
def playlistSummary (playlist : Obj) : Obj :=
  let owner : JVal :=
    match jget playlist "owner" (.obj []) with
    | .obj kvs =>
        let dn := jget kvs "display_name" .null
        if truthy dn then dn else jget kvs "id" (.str "Unknown")
    | _ => .str "Unknown"
  [("id", jget playlist "id" (.str "")),
   ("name", jget playlist "name" (.str "Unnamed Playlist")),
   ("description", jget playlist "description" (.str "")),
   ("track_count", trackCountOf playlist),
   ("owner", owner)]

/-- An upstream `SpotifyException`: HTTP status and message. -/
structure SpotifyExc where
  http_status : Nat
  msg : String

/-- Abbreviation of spotipy's exception string: it carries the HTTP status
and the upstream message (the parts the error policy reproduces). -/
def spotifyStr (e : SpotifyExc) : String :=
  "http status: " ++ toString e.http_status ++ ", " ++ e.msg

/-- The message `get_user_playlists` raises on any upstream failure
(src/data_gathering.py lines 74-75): uniform, no status distinction. -/
def get_user_playlists_error (e : SpotifyExc) : String :=
  "Error fetching playlists: " ++ spotifyStr e

/-- The message the outer handler of `get_playlist_tracks` raises
(src/data_gathering.py lines 175-181). -/
def get_playlist_tracks_error (e : SpotifyExc) : String :=
  if e.http_status = 403 then
    "Access denied. You may need to re-authenticate with updated permissions."
  else if e.http_status = 404 then
    "Resource not found. It may have been deleted or you may not have access."
  else
    "Error fetching playlist tracks: " ++ spotifyStr e

/-- The message the inner handler around the initial `playlist_tracks` call
raises (src/data_gathering.py lines 140-147); it raises a plain `Exception`,
which the outer `except SpotifyException` does not catch, so this message
is what the caller sees. -/
def playlist_tracks_initial_error (e : SpotifyExc) : String :=
  if e.http_status = 403 then
    "Access denied to playlist. You may need to re-authenticate with updated permissions, or this playlist may not be accessible with your current permissions."
  else if e.http_status = 404 then
    "Playlist not found. It may have been deleted or you may not have access."
  else
    "Error accessing playlist: " ++ spotifyStr e

/-- Substring test on character lists (used to state that a surfaced error
message names the need to re-authenticate). -/
def listContainsSub (sub : List Char) : List Char → Bool
  | [] => sub.isEmpty
  | c :: cs => sub.isPrefixOf (c :: cs) || listContainsSub sub cs

/-- `strContains s sub`: `sub` occurs inside `s`. -/
def strContains (s sub : String) : Bool :=
  listContainsSub sub.data s.data

/-- `format_track_data` (src/data_output.py lines 10-31): one export-row
dictionary per track, stamped with the playlist name. -/
def format_track_data (tracks : List Obj) (playlist_name : String) : List Obj :=
  tracks.map (fun track =>
    [("Name", jget track "name" (.str "Unknown Track")),
     ("Artist", jget track "artist" (.str "Unknown Artist")),
     ("Album", jget track "album" (.str "Unknown Album")),
     ("Year", jget track "year" (.str "")),
     ("Duration (ms)", jget track "duration_ms" (.num 0)),
     ("Playlist", .str playlist_name)])

/-- The fixed CSV column schema (`fieldnames` in src/data_output.py). -/
def fieldnames : List String :=
  ["Name", "Artist", "Album", "Year", "Duration (ms)", "Playlist"]

/-- Python's `csv` excel dialect QUOTE_MINIMAL rule: a field is quoted when
it contains the delimiter, the quote character, or a line-break character. -/
def needsQuote (s : String) : Bool :=
  s.data.any (fun c => c = ',' || c = '"' || c = '\r' || c = '\n')

/-- Doubles every quote character inside a quoted field. -/
def escapeQuotes (s : String) : String :=
  String.mk (s.data.flatMap (fun c => if c = '"' then ['"', '"'] else [c]))

/-- One CSV field under QUOTE_MINIMAL. -/
def csvField (s : String) : String :=
  if needsQuote s then "\"" ++ escapeQuotes s ++ "\"" else s

/-- How `csv.writer` stringifies a cell: `None` becomes the empty field,
anything else goes through `str()`. -/
def csvCell (v : JVal) : String :=
  match v with
  | .null => ""
  | v => pyStr v

/-- One CSV line from a list of already-stringified cells. -/
def csvLine (cells : List String) : String :=
  String.intercalate "," (cells.map csvField)

/-- The header line `csv.DictWriter.writeheader` produces. -/
def headerLine : String := csvLine fieldnames

/-- The line `writerow` produces for one export-row dictionary: the six
fields in `fieldnames` order (`None` for a missing key, written empty). -/
def rowLine (row : Obj) : String :=
  csvLine (fieldnames.map (fun f => csvCell (jget row f .null)))

/-- The `for track in tracks_data: writer.writerow(track)` loop: one
CRLF-terminated line per row (the csv module's default line terminator
is `"\r\n"`). -/
def csvBody : List Obj → String
  | [] => ""
  | r :: rs => rowLine r ++ "\r\n" ++ csvBody rs

/-- `generate_csv_content` (src/data_output.py lines 34-55): empty input
yields the empty string; otherwise the header line then the row lines. -/
def generate_csv_content (tracks_data : List Obj) : String :=
  if tracks_data.isEmpty then ""
  else headerLine ++ "\r\n" ++ csvBody tracks_data

/-- `combine_tracks_from_playlists` (src/data_output.py lines 84-99): walks
the mapping in order, extending with each collection's formatted tracks. -/
def combine_tracks_from_playlists (playlist_tracks_dict : List (String × List Obj)) :
    List Obj :=
  playlist_tracks_dict.foldl (fun all_tracks p => all_tracks ++ format_track_data p.2 p.1) []

/-- Outcome of one per-collection fetch inside the export loop: the track
list on success, the raised message on failure. -/
inductive FetchOutcome where
  | ok : List Obj → FetchOutcome
  | err : String → FetchOutcome

/-- The flash message the export route emits for one failed collection
(src/app.py line 137). -/
def flashMsg (name msg : String) : String :=
  "Error fetching tracks from " ++ name ++ ": " ++ msg

/-- Assignment `d[k] = v` on a Python dict kept as an ordered association
list: replaces in place when the key exists, appends otherwise. -/
def pyDictInsert (d : List (String × List Obj)) (k : String) (v : List Obj) :
    List (String × List Obj) :=
  if d.any (fun p => p.1 == k) then
    d.map (fun p => if p.1 == k then (k, v) else p)
  else d ++ [(k, v)]

/-- The fetch loop of the export route (src/app.py lines 129-138): builds
`all_tracks_data` and the list of flashed error messages, in order. -/
def gatherAux (acc : List (String × List Obj)) (fl : List String) :
    List (String × FetchOutcome) → List (String × List Obj) × List String
  | [] => (acc, fl)
  | (n, .ok ts) :: rest => gatherAux (pyDictInsert acc n ts) fl rest
  | (n, .err m) :: rest => gatherAux acc (fl ++ [flashMsg n m]) rest

/-- What one export request produces: the flashed messages and the CSV byte
stream when one is sent (`none` models the redirect without a download). -/
structure ExportResult where
  flashes : List String
  csv : Option String

/-- The export route's body after name resolution (src/app.py lines
129-153): each selection is (resolved display name, fetch outcome).  If
`all_tracks_data` ends up empty the route flashes the empty-result message
and redirects; otherwise it combines, serializes and sends the CSV. -/
def export_run (selections : List (String × FetchOutcome)) : ExportResult :=
  let r := gatherAux [] [] selections
  let all_tracks_data := r.1
  let fl := r.2
  if all_tracks_data.isEmpty then
    { flashes := fl ++ ["No tracks were retrieved from selected playlists"],
      csv := none }
  else
    { flashes := fl,
      csv := some (generate_csv_content (combine_tracks_from_playlists all_tracks_data)) }

/-! ### General lemmas about the embedding -/

theorem jget_nil (k : String) (d : JVal) : jget [] k d = d := rfl

theorem jget_cons (k1 : String) (v : JVal) (rest : Obj) (k : String) (d : JVal) :
    jget ((k1, v) :: rest) k d = if k1 == k then v else jget rest k d := by
  by_cases h : (k1 == k) = true
  · simp [jget, List.find?_cons_of_pos _ h, h]
  · simp [jget, List.find?_cons_of_neg _ h, h]

theorem asStrings_of_all_str (xs : List JVal) (h : ∀ v ∈ xs, ∃ s, v = .str s) :
    asStrings xs = some (xs.filterMap strOfJVal) := by
  induction xs with
  | nil => rfl
  | cons x rest ih =>
      obtain ⟨s, hs⟩ := h x (by simp)
      subst hs
      simp [asStrings, strOfJVal, ih (fun v hv => h v (by simp [hv]))]

theorem artistsField_ok_of_extractOk (track : Obj) (h : extractOk track = true) :
    ∃ s, artistsField track = .ok s := by
  unfold extractOk at h
  cases ha : artistsField track with
  | ok s => exact ⟨s, rfl⟩
  | error e => rw [ha] at h; simp at h

theorem artistsField_all_str (track : Obj) (l : List JVal)
    (hj : jget track "artists" (.arr []) = .arr l) (hl : l ≠ [])
    (hstr : ∀ v ∈ artistNameVals l, ∃ s, v = .str s)
    (hne : artistNameVals l ≠ []) :
    artistsField track =
      .ok (String.intercalate ", " ((artistNameVals l).filterMap strOfJVal)) := by
  unfold artistsField
  rw [hj]
  cases l with
  | nil => exact absurd rfl hl
  | cons a rest =>
      have he : (artistNameVals (a :: rest)).isEmpty = false := by
        simpa [List.isEmpty_iff] using hne
      simp only [he, Bool.false_eq_true, if_false]
      simp [pyJoin, asStrings_of_all_str _ hstr]

theorem extract_track_info_eq (track : Obj) (s : String)
    (h : artistsField track = .ok s) :
    extract_track_info track =
      .ok [("id", jget track "id" (.str "")),
           ("name", jget track "name" (.str "Unknown Track")),
           ("artist", .str s),
           ("album", (albumPairOf track).1),
           ("year", .str (yearOf track)),
           ("duration_ms", jget track "duration_ms" (.num 0))] := by
  unfold extract_track_info
  rw [h]
  rfl

theorem splitCharAux_append_sep (sep : Char) (ys : List Char)
    (h : sep ∉ ys) :
    ∀ (acc r : List Char),
      splitCharAux sep (ys ++ sep :: r) acc =
        (acc.reverse ++ ys) :: splitCharAux sep r [] := by
  induction ys with
  | nil => intro acc r; simp [splitCharAux]
  | cons c cs ih =>
      intro acc r
      have hc : ¬(c = sep) := fun he => h (by simp [he])
      have hcs : sep ∉ cs := fun hm => h (by simp [hm])
      simp only [List.cons_append, splitCharAux, if_neg hc, List.append_eq]
      rw [ih hcs (c :: acc) r]
      simp

theorem pySplit_headD (y rest : String) (h : ('-' : Char) ∉ y.data) :
    (pySplit (y ++ "-" ++ rest) '-').headD "" = y := by
  unfold pySplit
  have hd : (y ++ "-" ++ rest).data = y.data ++ '-' :: rest.data := by
    rw [String.data_append, String.data_append]
    simp
  rw [hd, splitCharAux_append_sep '-' y.data h [] rest.data]
  simp

theorem sep_str_ne_empty (y rest : String) : (y ++ "-" ++ rest) ≠ "" := by
  intro he
  have : (y ++ "-" ++ rest).data = ("" : String).data := by rw [he]
  rw [String.data_append, String.data_append] at this
  simp at this

theorem pyDictInsert_ne_nil (d : List (String × List Obj)) (k : String)
    (v : List Obj) : pyDictInsert d k v ≠ [] := by
  unfold pyDictInsert
  by_cases h : d.any (fun p => p.1 == k) = true
  · simp only [h, if_true]
    intro hc
    rw [List.map_eq_nil_iff] at hc
    subst hc
    simp at h
  · simp only [h, if_false]
    simp

theorem gatherAux_fst_all_err :
    ∀ (sels : List (String × FetchOutcome)) (acc : List (String × List Obj))
      (fl : List String),
      (∀ p ∈ sels, ∃ m, p.2 = .err m) → (gatherAux acc fl sels).1 = acc := by
  intro sels
  induction sels with
  | nil => intro acc fl _; rfl
  | cons hd tl ih =>
      intro acc fl h
      obtain ⟨n, o⟩ := hd
      obtain ⟨m, hm⟩ := h (n, o) (by simp)
      simp only at hm
      subst hm
      simp only [gatherAux]
      exact ih acc (fl ++ [flashMsg n m]) (fun p hp => h p (by simp [hp]))

theorem gatherAux_fst_ne_nil_of_acc :
    ∀ (sels : List (String × FetchOutcome)) (acc : List (String × List Obj))
      (fl : List String), acc ≠ [] → (gatherAux acc fl sels).1 ≠ [] := by
  intro sels
  induction sels with
  | nil => intro acc fl h; exact h
  | cons hd tl ih =>
      intro acc fl h
      obtain ⟨n, o⟩ := hd
      cases o with
      | ok ts => exact ih _ _ (pyDictInsert_ne_nil acc n ts)
      | err m => exact ih _ _ h

theorem gatherAux_fst_ne_nil :
    ∀ (sels : List (String × FetchOutcome)) (acc : List (String × List Obj))
      (fl : List String),
      (∃ p ∈ sels, ∃ ts, p.2 = .ok ts) → (gatherAux acc fl sels).1 ≠ [] := by
  intro sels
  induction sels with
  | nil => intro acc fl h; simp at h
  | cons hd tl ih =>
      intro acc fl h
      obtain ⟨n, o⟩ := hd
      cases o with
      | ok ts =>
          exact gatherAux_fst_ne_nil_of_acc tl _ fl (pyDictInsert_ne_nil acc n ts)
      | err m =>
          apply ih
          obtain ⟨p, hp, ts, hts⟩ := h
          rcases List.mem_cons.mp hp with he | hm
          · subst he; simp at hts
          · exact ⟨p, hm, ts, hts⟩

theorem gatherAux_snd_mem :
    ∀ (sels : List (String × FetchOutcome)) (acc : List (String × List Obj))
      (fl : List String) (x : String), x ∈ fl → x ∈ (gatherAux acc fl sels).2 := by
  intro sels
  induction sels with
  | nil => intro acc fl x h; exact h
  | cons hd tl ih =>
      intro acc fl x h
      obtain ⟨n, o⟩ := hd
      cases o with
      | ok ts => exact ih _ _ _ h
      | err m => exact ih _ _ _ (by simp [h])

theorem gatherAux_snd_flash :
    ∀ (sels : List (String × FetchOutcome)) (acc : List (String × List Obj))
      (fl : List String) (n : String) (m : String),
      (n, FetchOutcome.err m) ∈ sels → flashMsg n m ∈ (gatherAux acc fl sels).2 := by
  intro sels
  induction sels with
  | nil => intro acc fl n m h; simp at h
  | cons hd tl ih =>
      intro acc fl n m h
      obtain ⟨n', o⟩ := hd
      rcases List.mem_cons.mp h with he | hm
      · cases he
        simp only [gatherAux]
        exact gatherAux_snd_mem tl _ _ _ (by simp)
      · cases o with
        | ok ts => exact ih _ _ _ _ hm
        | err m' => exact ih _ _ _ _ hm

/-! ### Claim C3: item-count extraction of listCollections -/

/-- Modelled from the spec: the claimed extraction rule — the total nested
under `items` when available, otherwise the total nested under `tracks`,
otherwise 0. -/
def specTrackCount (playlist : Obj) : JVal :=
  match jget playlist "items" .null with
  | .obj kvs => jget kvs "total" (.num 0)
  | _ =>
      match jget playlist "tracks" .null with
      | .obj kvs => jget kvs "total" (.num 0)
      | _ => .num 0

/-- C3: the claim (and the code's own comment, src/data_gathering.py line
46) say a record with no `items` key falls back to the total under
`tracks`; but `playlist.get('items', {})` returns a dict default when
`items` is missing, so the fallback branch is unreachable there and the
code reports 0 instead of the `tracks` total. -/
theorem C3_trackCount_fallback_unreachable :
    trackCountOf [("tracks", .obj [("total", .num 5)])] = .num 0
    ∧ specTrackCount [("tracks", .obj [("total", .num 5)])] = .num 5
    ∧ trackCountOf [("tracks", .obj [("total", .num 5)])] ≠
        specTrackCount [("tracks", .obj [("total", .num 5)])] := by
  refine ⟨rfl, rfl, ?_⟩
  intro h
  have h2 : JVal.num 0 = JVal.num 5 := h
  injection h2 with h3
  omega

/-! ### Claim C8: the Aggregator -/

theorem combine_foldl (d : List (String × List Obj)) :
    ∀ acc, d.foldl (fun all_tracks p => all_tracks ++ format_track_data p.2 p.1) acc
      = acc ++ (d.map (fun p => format_track_data p.2 p.1)).flatten := by
  induction d with
  | nil => intro acc; simp
  | cons hd tl ih => intro acc; simp [ih, List.append_assoc]

/-- C8: the Aggregator returns exactly the concatenation of each
collection's formatted tracks in the mapping's iteration order — so its
length is the sum of the collections' track counts (no filtering, no
deduplication) — and on the A/B example the three rows are tagged
`A`, `A`, `B` in order. -/
theorem C8_aggregator_concatenation (d : List (String × List Obj)) :
    combine_tracks_from_playlists d
      = (d.map (fun p => format_track_data p.2 p.1)).flatten
    ∧ (combine_tracks_from_playlists d).length
        = (d.map (fun p => p.2.length)).sum
    ∧ ∀ (A B : String) (t1 t2 t3 : Obj),
        (combine_tracks_from_playlists [(A, [t1, t2]), (B, [t3])]).map
            (fun row => jget row "Playlist" .null)
          = [.str A, .str A, .str B] := by
  have h1 : combine_tracks_from_playlists d
      = (d.map (fun p => format_track_data p.2 p.1)).flatten := combine_foldl d []
  refine ⟨h1, ?_, ?_⟩
  · rw [h1]
    simp [List.length_flatten, List.map_map, Function.comp_def, format_track_data]
  · intro A B t1 t2 t3
    simp [combine_tracks_from_playlists, format_track_data, jget_cons, jget]

/-! ### Claim C9: the CSV Serializer -/

/-- The example row of the claim. -/
def C9exampleRow : Obj :=
  [("Name", .str "X"), ("Artist", .str "Y, Z"), ("Album", .str "W"),
   ("Year", .str "2020"), ("Duration (ms)", .num 1000), ("Playlist", .str "P")]

/-- C9: the serializer maps the empty sequence to the empty string (no
header), and a non-empty sequence to the fixed header line followed by one
CRLF-terminated line per row in order; the example row with a comma inside
the artist field serializes to the header plus `X,"Y, Z",W,2020,1000,P`. -/
theorem C9_csv_serializer :
    generate_csv_content [] = ""
    ∧ (∀ (r : Obj) (rs : List Obj),
        generate_csv_content (r :: rs) =
          "Name,Artist,Album,Year,Duration (ms),Playlist" ++ "\r\n" ++ csvBody (r :: rs))
    ∧ (∀ (r : Obj) (rs : List Obj), csvBody (r :: rs) = rowLine r ++ "\r\n" ++ csvBody rs)
    ∧ generate_csv_content [C9exampleRow] =
        "Name,Artist,Album,Year,Duration (ms),Playlist\r\nX,\"Y, Z\",W,2020,1000,P\r\n" := by
  exact ⟨rfl, fun r rs => rfl, fun r rs => rfl, rfl⟩

/-! ### Claim C6: year extraction -/

/-- C6: when the release date the normalizer reads is `y ++ "-" ++ rest`
with `y` dash-free (the portion before the first `-`), the output year is
`y`; when the release date is empty — which is also what an absent date or
a non-dictionary album degrades to — the output year is `""`. -/
theorem C6_year_extraction (track : Obj) (y rest : String) :
    (('-' : Char) ∉ y.data → releaseDateOf track = .str (y ++ "-" ++ rest) →
      extractOk track = true →
      ∃ r, extract_track_info track = .ok r ∧ jget r "year" (.str "?") = .str y)
    ∧ (releaseDateOf track = .str "" → extractOk track = true →
      ∃ r, extract_track_info track = .ok r ∧ jget r "year" (.str "?") = .str "") := by
  constructor
  · intro hdash hrel hok
    obtain ⟨s, hs⟩ := artistsField_ok_of_extractOk track hok
    refine ⟨_, extract_track_info_eq track s hs, ?_⟩
    have htr : truthy (JVal.str (y ++ "-" ++ rest)) = true := by
      simp only [truthy, bne_iff_ne, ne_eq]
      exact sep_str_ne_empty y rest
    have hyear : yearOf track = y := by
      unfold yearOf
      rw [hrel]
      simp only [htr, if_true, pyStr]
      exact pySplit_headD y rest hdash
    simp [jget_cons, hyear]
  · intro hrel hok
    obtain ⟨s, hs⟩ := artistsField_ok_of_extractOk track hok
    refine ⟨_, extract_track_info_eq track s hs, ?_⟩
    have hyear : yearOf track = "" := by
      unfold yearOf
      rw [hrel]
      simp [truthy]
    simp [jget_cons, hyear]

/-- C6 witness input: a record whose album release date is `2020-01-01`. -/
def C6track : Obj := [("album", .obj [("release_date", .str "2020-01-01")])]

/-- Witness for C6 at concrete inputs. -/
theorem C6_year_extraction_witness :
    (∃ r, extract_track_info C6track = .ok r ∧ jget r "year" (.str "?") = .str "2020")
    ∧ (∃ r, extract_track_info [] = .ok r ∧ jget r "year" (.str "?") = .str "") := by
  constructor
  · exact (C6_year_extraction C6track "2020" "01-01").1 (by decide) rfl rfl
  · exact (C6_year_extraction [] "" "").2 rfl rfl

/-! ### Claim C7: artist extraction -/

/-- The artist names the normalizer collects, as strings (defined on lists
where every dictionary entry carries a string name). -/
def artistNameStrings (l : List JVal) : List String :=
  (artistNameVals l).filterMap strOfJVal

/-- C7: a missing `artists` key (which degrades to the empty-list default)
or an explicit empty list yields `Unknown Artist`; a non-empty list of
artist dictionaries with string names yields those names joined by `", "`. -/
theorem C7_artist_field (track : Obj) :
    (jget track "artists" (.arr []) = .arr [] →
      ∃ r, extract_track_info track = .ok r ∧
        jget r "artist" .null = .str "Unknown Artist")
    ∧ (∀ l, jget track "artists" (.arr []) = .arr l → l ≠ [] →
        (∀ v ∈ l, ∃ kvs s, v = .obj kvs ∧
          jget kvs "name" (.str "Unknown Artist") = .str s) →
        ∃ r, extract_track_info track = .ok r ∧
          jget r "artist" .null =
            .str (String.intercalate ", " (artistNameStrings l))) := by
  constructor
  · intro h
    have hs : artistsField track = .ok "Unknown Artist" := by
      unfold artistsField
      rw [h]
    exact ⟨_, extract_track_info_eq track _ hs, by simp [jget_cons]⟩
  · intro l hj hl hstr
    have hall : ∀ v ∈ artistNameVals l, ∃ s, v = .str s := by
      intro v hv
      obtain ⟨a, ha, hfa⟩ := List.mem_filterMap.mp hv
      obtain ⟨kvs, s, hk, hn⟩ := hstr a ha
      subst hk
      simp only [Option.some.injEq] at hfa
      exact ⟨s, by rw [← hfa, hn]⟩
    have hne : artistNameVals l ≠ [] := by
      obtain ⟨a, rest, rfl⟩ := List.exists_cons_of_ne_nil hl
      obtain ⟨kvs, s, hk, _⟩ := hstr a (by simp)
      subst hk
      simp [artistNameVals]
    have hs := artistsField_all_str track l hj hl hall hne
    exact ⟨_, extract_track_info_eq track _ hs, by simp [jget_cons, artistNameStrings]⟩

/-- C7 witness input: two artists named A and B. -/
def C7track : Obj :=
  [("artists", .arr [.obj [("name", .str "A")], .obj [("name", .str "B")]])]

/-- Witness for C7 at concrete inputs. -/
theorem C7_artist_field_witness :
    (∃ r, extract_track_info [] = .ok r ∧
      jget r "artist" .null = .str "Unknown Artist")
    ∧ (∃ r, extract_track_info C7track = .ok r ∧
      jget r "artist" .null =
        .str (String.intercalate ", "
          (artistNameStrings [.obj [("name", .str "A")], .obj [("name", .str "B")]]))) := by
  constructor
  · exact (C7_artist_field []).1 rfl
  · refine (C7_artist_field C7track).2 _ rfl (by simp) ?_
    intro v hv
    simp only [List.mem_cons, List.not_mem_nil, or_false] at hv
    rcases hv with rfl | rfl
    · exact ⟨[("name", .str "A")], "A", rfl, rfl⟩
    · exact ⟨[("name", .str "B")], "B", rfl, rfl⟩

/-! ### Claim C5: normalizer totality and non-null fields -/

/-- The six output fields of a normalized track. -/
def trackFields : List String :=
  ["id", "name", "artist", "album", "year", "duration_ms"]

/-- A value is defined (not null). -/
def isNonNull : JVal → Bool
  | .null => false
  | _ => true

/-- The field is present in the record and its value is not null. -/
def hasFieldNonNull (r : Obj) (f : String) : Bool :=
  match r.find? (fun p => p.1 == f) with
  | some p => isNonNull p.2
  | none => false

/-- All six track fields are present with non-null values. -/
def allTrackFieldsNonNull (r : Obj) : Bool :=
  trackFields.all (hasFieldNonNull r)

theorem isNonNull_of_ne (v : JVal) (h : v ≠ .null) : isNonNull v = true := by
  cases v
  · exact absurd rfl h
  all_goals rfl

/-- C5 counterexample: a raw record carrying an explicit null `id` makes the
normalizer return a record whose `id` field is null — `dict.get` defaults
cover only missing keys, so "no field is ever null" fails as stated. -/
theorem C5_counterexample :
    extract_track_info [("id", JVal.null)] =
      .ok [("id", JVal.null), ("name", .str "Unknown Track"),
           ("artist", .str "Unknown Artist"), ("album", .str "Unknown Album"),
           ("year", .str ""), ("duration_ms", .num 0)]
    ∧ allTrackFieldsNonNull
        [("id", JVal.null), ("name", .str "Unknown Track"),
         ("artist", .str "Unknown Artist"), ("album", .str "Unknown Album"),
         ("year", .str ""), ("duration_ms", .num 0)] = false := ⟨rfl, rfl⟩

/-- C5 (amended): on records whose present `id`, `name`, `duration_ms`
values and album name are non-null, and whose artist entries join to a
string, the normalizer terminates without error and every one of the six
output fields is defined and non-null (degraded cases taking their
placeholders). -/
theorem C5_normalizer_defined_fields (track : Obj)
    (hok : extractOk track = true)
    (hid : jget track "id" (.str "") ≠ .null)
    (hname : jget track "name" (.str "Unknown Track") ≠ .null)
    (hdur : jget track "duration_ms" (.num 0) ≠ .null)
    (halb : (albumPairOf track).1 ≠ .null) :
    ∃ r, extract_track_info track = .ok r ∧ allTrackFieldsNonNull r = true := by
  obtain ⟨s, hs⟩ := artistsField_ok_of_extractOk track hok
  refine ⟨_, extract_track_info_eq track s hs, ?_⟩
  simp only [allTrackFieldsNonNull, trackFields, List.all_cons, List.all_nil,
    Bool.and_eq_true, Bool.and_true]
  refine ⟨?_, ?_, ?_, ?_, ?_, ?_⟩
  · exact isNonNull_of_ne (jget track "id" (.str "")) hid
  · exact isNonNull_of_ne (jget track "name" (.str "Unknown Track")) hname
  · rfl
  · exact isNonNull_of_ne ((albumPairOf track).1) halb
  · rfl
  · exact isNonNull_of_ne (jget track "duration_ms" (.num 0)) hdur

/-- Witness for C5 at the empty record: every field degrades to its
placeholder and the conclusion holds. -/
theorem C5_normalizer_defined_fields_witness :
    ∃ r, extract_track_info [] = .ok r ∧ allTrackFieldsNonNull r = true :=
  C5_normalizer_defined_fields [] rfl (fun h => nomatch h) (fun h => nomatch h)
    (fun h => nomatch h) (fun h => nomatch h)

/-! ### Claim C2: which page items contribute a Track -/

/-- `extractOk` lifted to an arbitrary payload value. -/
def extractOkV : JVal → Bool
  | .obj kvs => extractOk kvs
  | _ => true

/-- The playlist path's keep condition: the resolved payload is a truthy
dictionary whose media type is `"track"` and whose id is truthy. -/
def playlistKeep (item : Obj) : Bool :=
  match playlistPayload item with
  | .obj kvs =>
      truthy (.obj kvs) && isStrEq (jget kvs "type" (.str "")) "track"
        && truthy (jget kvs "id" .null)
  | _ => false

/-- The liked-songs path's keep condition: the `track` payload is a truthy
dictionary whose id is truthy — no media-type condition. -/
def likedKeep (item : Obj) : Bool :=
  match jget item "track" .null with
  | .obj kvs => truthy (.obj kvs) && truthy (jget kvs "id" .null)
  | _ => false

/-- The liked-songs path cannot raise on this item: the payload is either a
dictionary or falsy (a truthy non-dictionary hits `track.get` and raises). -/
def likedSafe (item : Obj) : Bool :=
  match jget item "track" .null with
  | .obj _ => true
  | t => !truthy t

/-- C2 counterexample input: a saved-tracks page item whose embedded payload
is a podcast episode with an identifier. -/
def C2episodeItem : Obj :=
  [("track", .obj [("id", .str "e1"), ("type", .str "episode")])]

/-- C2 counterexample: on the liked-songs path an item whose embedded
payload has media type `"episode"` (not `"track"`) still contributes a
Track, because that path never checks the media type; the playlist path,
which does check it, skips the very same payload. -/
theorem C2_counterexample :
    processLikedItem C2episodeItem =
      .ok (some [("id", .str "e1"), ("name", .str "Unknown Track"),
                 ("artist", .str "Unknown Artist"), ("album", .str "Unknown Album"),
                 ("year", .str ""), ("duration_ms", .num 0)])
    ∧ processPlaylistItem C2episodeItem = .ok none
    ∧ isStrEq (jget [("id", .str "e1"), ("type", .str "episode")] "type" (.str ""))
        "track" = false := ⟨rfl, rfl, rfl⟩

/-- C2 (amended): on the playlist path an item contributes a Track iff its
resolved payload (`item` field, else `track` field) is a truthy dictionary
of media type `"track"` with a truthy id, all other items being skipped
without error; on the liked-songs path an item contributes iff its `track`
payload is a truthy dictionary with a truthy id — with no media-type check,
so identified episodes are included — and items with a falsy payload are
skipped (a truthy non-dictionary payload raises there instead). -/
theorem C2_item_filtering (item : Obj) :
    (playlistKeep item = false → processPlaylistItem item = .ok none)
    ∧ (playlistKeep item = true → extractOkV (playlistPayload item) = true →
        ∃ t, processPlaylistItem item = .ok (some t))
    ∧ (likedKeep item = false → likedSafe item = true →
        processLikedItem item = .ok none)
    ∧ (likedKeep item = true → extractOkV (jget item "track" .null) = true →
        ∃ t, processLikedItem item = .ok (some t)) := by
  refine ⟨?_, ?_, ?_, ?_⟩
  · intro hk
    unfold processPlaylistItem
    unfold playlistKeep at hk
    cases hp : playlistPayload item with
    | obj kvs =>
        rw [hp] at hk
        simp only [Bool.and_eq_false_iff] at hk
        by_cases ht : truthy (.obj kvs) = true
        · rcases hk with (hk | hk) | hk
          · rw [ht] at hk; exact absurd hk (by simp)
          · simp [ht, hk]
          · simp [ht, hk]
        · simp [Bool.eq_false_iff.mpr ht]
    | null => rfl
    | bool b => rfl
    | num n => rfl
    | str s => rfl
    | arr l => rfl
  · intro hk hok
    unfold processPlaylistItem
    unfold playlistKeep at hk
    cases hp : playlistPayload item with
    | obj kvs =>
        rw [hp] at hk
        rw [hp] at hok
        simp only [Bool.and_eq_true] at hk
        obtain ⟨⟨ht, hty⟩, hid⟩ := hk
        obtain ⟨s, hs⟩ := artistsField_ok_of_extractOk kvs hok
        exact ⟨_, by
          simp only [ht, if_true, hty, hid, Bool.and_self]
          rw [extract_track_info_eq kvs s hs]
          rfl⟩
    | null => rw [hp] at hk; exact absurd hk (by simp)
    | bool b => rw [hp] at hk; exact absurd hk (by simp)
    | num n => rw [hp] at hk; exact absurd hk (by simp)
    | str s => rw [hp] at hk; exact absurd hk (by simp)
    | arr l => rw [hp] at hk; exact absurd hk (by simp)
  · intro hk hsafe
    unfold processLikedItem
    unfold likedKeep at hk
    unfold likedSafe at hsafe
    cases hp : jget item "track" .null with
    | obj kvs =>
        rw [hp] at hk
        simp only [Bool.and_eq_false_iff] at hk
        by_cases ht : truthy (.obj kvs) = true
        · rcases hk with hk | hk
          · rw [ht] at hk; exact absurd hk (by simp)
          · simp [ht, hk]
        · simp [Bool.eq_false_iff.mpr ht]
    | null => rfl
    | bool b =>
        rw [hp] at hsafe
        simp only [Bool.not_eq_true'] at hsafe
        simp [hsafe]
    | num n =>
        rw [hp] at hsafe
        simp only [Bool.not_eq_true'] at hsafe
        simp [hsafe]
    | str s =>
        rw [hp] at hsafe
        simp only [Bool.not_eq_true'] at hsafe
        simp [hsafe]
    | arr l =>
        rw [hp] at hsafe
        simp only [Bool.not_eq_true'] at hsafe
        simp [hsafe]
  · intro hk hok
    unfold processLikedItem
    unfold likedKeep at hk
    cases hp : jget item "track" .null with
    | obj kvs =>
        rw [hp] at hk
        rw [hp] at hok
        simp only [Bool.and_eq_true] at hk
        obtain ⟨ht, hid⟩ := hk
        obtain ⟨s, hs⟩ := artistsField_ok_of_extractOk kvs hok
        exact ⟨_, by
          simp only [ht, if_true, hid]
          rw [extract_track_info_eq kvs s hs]
          rfl⟩
    | null => rw [hp] at hk; exact absurd hk (by simp)
    | bool b => rw [hp] at hk; exact absurd hk (by simp)
    | num n => rw [hp] at hk; exact absurd hk (by simp)
    | str s => rw [hp] at hk; exact absurd hk (by simp)
    | arr l => rw [hp] at hk; exact absurd hk (by simp)

/-- Witness for C2 at concrete items: an empty item is skipped on both
paths, and a proper track payload contributes on both paths. -/
theorem C2_item_filtering_witness :
    processPlaylistItem [] = .ok none
    ∧ processLikedItem [] = .ok none
    ∧ (∃ t, processPlaylistItem
        [("track", .obj [("id", .str "t1"), ("type", .str "track")])] = .ok (some t))
    ∧ (∃ t, processLikedItem
        [("track", .obj [("id", .str "t1"), ("type", .str "track")])] = .ok (some t)) := by
  refine ⟨(C2_item_filtering []).1 rfl,
    (C2_item_filtering []).2.2.1 rfl rfl, ?_, ?_⟩
  · exact (C2_item_filtering
      [("track", .obj [("id", .str "t1"), ("type", .str "track")])]).2.1 rfl rfl
  · exact (C2_item_filtering
      [("track", .obj [("id", .str "t1"), ("type", .str "track")])]).2.2.2 rfl rfl

/-! ### Claim C4: the Fetcher error policy -/

/-- C4 counterexample: `listCollections` (`get_user_playlists`) catches
every upstream failure in one handler and surfaces a 403 as the uniform
generic message, which neither matches fetchTracks' AccessDenied surface
nor names the need to re-authenticate. -/
theorem C4_counterexample :
    get_user_playlists_error ⟨403, "boom"⟩ =
      "Error fetching playlists: http status: 403, boom"
    ∧ strContains (get_user_playlists_error ⟨403, "boom"⟩) "re-authenticate" = false
    ∧ strContains (get_user_playlists_error ⟨403, "boom"⟩) "Access denied" = false
    ∧ strContains (get_playlist_tracks_error ⟨403, "boom"⟩) "re-authenticate" = true := by
  refine ⟨rfl, ?_, ?_, ?_⟩ <;> decide

/-- C4 (amended): `fetchTracks` surfaces a 403 as an access-denied message
naming the need to re-authenticate, a 404 as a not-found message, and any
other upstream failure as a generic message carrying the upstream error
(both in its outer handler and in the inner handler around the initial
playlist call); `listCollections`, however, surfaces every upstream
failure — 403 and 404 included — as the one uniform
`Error fetching playlists:` message. -/
theorem C4_error_policy (e : SpotifyExc) :
    (e.http_status = 403 →
      get_playlist_tracks_error e =
        "Access denied. You may need to re-authenticate with updated permissions."
      ∧ playlist_tracks_initial_error e =
        "Access denied to playlist. You may need to re-authenticate with updated permissions, or this playlist may not be accessible with your current permissions."
      ∧ strContains (get_playlist_tracks_error e) "re-authenticate" = true
      ∧ strContains (playlist_tracks_initial_error e) "re-authenticate" = true)
    ∧ (e.http_status = 404 →
      get_playlist_tracks_error e =
        "Resource not found. It may have been deleted or you may not have access."
      ∧ playlist_tracks_initial_error e =
        "Playlist not found. It may have been deleted or you may not have access.")
    ∧ (e.http_status ≠ 403 → e.http_status ≠ 404 →
      get_playlist_tracks_error e = "Error fetching playlist tracks: " ++ spotifyStr e
      ∧ playlist_tracks_initial_error e = "Error accessing playlist: " ++ spotifyStr e)
    ∧ get_user_playlists_error e = "Error fetching playlists: " ++ spotifyStr e := by
  refine ⟨?_, ?_, ?_, rfl⟩
  · intro h
    refine ⟨?_, ?_, ?_, ?_⟩ <;>
      simp only [get_playlist_tracks_error, playlist_tracks_initial_error, h,
        if_true] <;> decide
  · intro h
    constructor <;>
      simp [get_playlist_tracks_error, playlist_tracks_initial_error, h]
  · intro h3 h4
    constructor <;>
      simp [get_playlist_tracks_error, playlist_tracks_initial_error, h3, h4]

/-- Witness for C4 at concrete upstream failures with each status. -/
theorem C4_error_policy_witness :
    get_playlist_tracks_error ⟨403, "m"⟩ =
      "Access denied. You may need to re-authenticate with updated permissions."
    ∧ get_playlist_tracks_error ⟨404, "m"⟩ =
      "Resource not found. It may have been deleted or you may not have access."
    ∧ get_playlist_tracks_error ⟨500, "m"⟩ =
      "Error fetching playlist tracks: " ++ spotifyStr ⟨500, "m"⟩
    ∧ get_user_playlists_error ⟨403, "m"⟩ =
      "Error fetching playlists: " ++ spotifyStr ⟨403, "m"⟩ :=
  ⟨((C4_error_policy ⟨403, "m"⟩).1 rfl).1,
   ((C4_error_policy ⟨404, "m"⟩).2.1 rfl).1,
   ((C4_error_policy ⟨500, "m"⟩).2.2.1 (by decide) (by decide)).1,
   (C4_error_policy ⟨403, "m"⟩).2.2.2⟩

/-! ### Claims C1 and C10: the export route -/

/-- C1 counterexample: a single selected collection that succeeds with zero
tracks does not make the export fail with EmptyResult — a CSV byte stream
(the empty string) is produced and no error is flashed, although every
selected collection yielded nothing. -/
theorem C1_counterexample :
    (export_run [("P", FetchOutcome.ok [])]).csv = some ""
    ∧ (export_run [("P", FetchOutcome.ok [])]).flashes = [] := ⟨rfl, rfl⟩

/-- C1 (amended): if every selected collection's fetch fails (raises), the
export fails with the empty-result message and no CSV stream is produced,
each failure also being flashed individually with the collection name and
reason; if at least one fetch succeeds — even with zero tracks — a CSV
stream is produced and each fetch failure is still flashed individually. -/
theorem C1_export_failure_policy (sels : List (String × FetchOutcome)) :
    ((∀ p ∈ sels, ∃ m, p.2 = .err m) →
      (export_run sels).csv = none
      ∧ "No tracks were retrieved from selected playlists" ∈ (export_run sels).flashes
      ∧ ∀ n m, (n, FetchOutcome.err m) ∈ sels →
          flashMsg n m ∈ (export_run sels).flashes)
    ∧ ((∃ p ∈ sels, ∃ ts, p.2 = .ok ts) →
      (∃ s, (export_run sels).csv = some s)
      ∧ ∀ n m, (n, FetchOutcome.err m) ∈ sels →
          flashMsg n m ∈ (export_run sels).flashes) := by
  constructor
  · intro h
    have hfst : (gatherAux [] [] sels).1 = [] := gatherAux_fst_all_err sels [] [] h
    unfold export_run
    simp only [hfst, List.isEmpty_nil, if_true]
    refine ⟨by trivial, by simp, ?_⟩
    intro n m hm
    exact List.mem_append_left _ (gatherAux_snd_flash sels [] [] n m hm)
  · intro h
    have hfst : (gatherAux [] [] sels).1 ≠ [] := gatherAux_fst_ne_nil sels [] [] h
    unfold export_run
    have hie : (gatherAux [] [] sels).1.isEmpty = false := by
      simpa [List.isEmpty_iff] using hfst
    simp only [hie, Bool.false_eq_true, if_false]
    exact ⟨⟨_, rfl⟩, fun n m hm => gatherAux_snd_flash sels [] [] n m hm⟩

/-- Witness for C1: one all-failed export and one partially-failed export. -/
theorem C1_export_failure_policy_witness :
    (export_run [("A", FetchOutcome.err "x")]).csv = none
    ∧ flashMsg "A" "x" ∈ (export_run [("A", FetchOutcome.err "x")]).flashes
    ∧ (∃ s, (export_run [("B", FetchOutcome.err "y"),
        ("C", FetchOutcome.ok [])]).csv = some s)
    ∧ flashMsg "B" "y" ∈ (export_run [("B", FetchOutcome.err "y"),
        ("C", FetchOutcome.ok [])]).flashes := by
  have h1 := (C1_export_failure_policy [("A", FetchOutcome.err "x")]).1 (by
    intro p hp
    simp only [List.mem_singleton] at hp
    subst hp
    exact ⟨"x", rfl⟩)
  have h2 := (C1_export_failure_policy [("B", FetchOutcome.err "y"),
      ("C", FetchOutcome.ok [])]).2 ⟨("C", FetchOutcome.ok []), by simp, [], rfl⟩
  exact ⟨h1.1, h1.2.2 "A" "x" (by simp), h2.1, h2.2 "B" "y" (by simp)⟩

/-- C10: when two selected collections resolve to the same display name,
the aggregation dict keyed by name keeps only the later one's tracks, so
the export serializes exactly the later collection's rows and the row
count falls short of the two collections' combined track count. -/
theorem C10_duplicate_name_replacement (n : String) (ts1 ts2 : List Obj) :
    (export_run [(n, .ok ts1), (n, .ok ts2)]).csv
      = some (generate_csv_content (format_track_data ts2 n))
    ∧ (format_track_data ts2 n).length = ts2.length
    ∧ (ts1 ≠ [] → ts2.length < ts1.length + ts2.length) := by
  refine ⟨?_, by simp [format_track_data], ?_⟩
  · have e1 : pyDictInsert [] n ts1 = [(n, ts1)] := rfl
    have e2 : pyDictInsert [(n, ts1)] n ts2 = [(n, ts2)] := by
      simp [pyDictInsert]
    have hg : gatherAux [] [] [(n, .ok ts1), (n, .ok ts2)] = ([(n, ts2)], []) := by
      simp only [gatherAux]
      rw [e1, e2]
    have hc : combine_tracks_from_playlists [(n, ts2)] = format_track_data ts2 n := by
      simp [combine_tracks_from_playlists]
    unfold export_run
    rw [hg]
    simp [hc]
  · intro h
    have hp : 0 < ts1.length := List.length_pos.mpr h
    omega

/-- Witness for C10 at a concrete colliding selection. -/
theorem C10_duplicate_name_replacement_witness :
    (export_run [("N", .ok [[("name", .str "t1")]]),
        ("N", .ok [[("name", .str "t2")]])]).csv
      = some (generate_csv_content (format_track_data [[("name", .str "t2")]] "N"))
    ∧ (1 : Nat) < 1 + 1 := by
  have h := C10_duplicate_name_replacement "N" [[("name", .str "t1")]]
    [[("name", .str "t2")]]
  exact ⟨h.1, h.2.2 (List.cons_ne_nil _ _)⟩

end Goodhare
